import Mathlib

/-!
Verification development for an MCP (Model Context Protocol) SSE host/client/server
demo around a SQLite store.

Source files embedded:
- `mcp_server.py`  : the `query_db` tool, the `db://schema` resource (`get_schema`),
  and the `sql_prompt` prompt template;
- `create_database.py` : the fixture store (tables `users`, `orders` and their rows);
- `mcp_client.py`  : `MCP_Client` (connect / disconnect / list_tools / call_tool /
  get_prompt / get_resource) and the `ToolInvocationResult` dataclass;
- `mcp_host.py`    : the orchestrator loop in `main`.

The SQLite engine, the network transport and the LLM collaborator are external
collaborators: they enter the embedding as explicit parameters (an `exec` function
for the store, result environments for the remote endpoints), exactly at the
interface the Python code uses them through.
-/

namespace MCPServer

/-- A SQL value as it appears in a fetched row.  The fixture rows built by
`create_database.py` that the claims touch hold only integers and strings. -/
inductive SqlValue where
  | intV (n : Int)
  | strV (s : String)
  deriving DecidableEq, Repr

/-- Python `repr` of a row element, as used by `str(row)` on a tuple:
integers print in decimal, strings print wrapped in single quotes. -/
def pyRepr : SqlValue → String
  | .intV n => toString n
  | .strV s => "\x27" ++ s ++ "\x27"

/-- Python `str(row)` for a fetched row (a tuple): parenthesised,
comma-separated `repr`s of the elements. -/
def pyStrRow (r : List SqlValue) : String :=
  "(" ++ String.intercalate ", " (r.map pyRepr) ++ ")"

/-- The SQLite store, seen through the single capability `mcp_server.py` uses:
`cursor.execute(sql); cursor.fetchall()` either yields a list of rows or raises
an exception carrying a message.  The engine itself is an external collaborator,
so it enters the embedding as this function. -/
structure SqliteDb where
  exec : String → Except String (List (List SqlValue))

/-- The tool `query_db` from `mcp_server.py` (lines 63-87): execute the SQL against the
store; on success return the fetched rows stringified and newline-joined; on an
exception return the string `"Error: "` followed by the exception message.  It
always returns a string, never propagates the store fault. -/
def query_db (db : SqliteDb) (sql : String) : String :=
  match db.exec sql with
  | .ok rows => String.intercalate "\n" (rows.map pyStrRow)
  | .error e => "Error: " ++ e

/-- Does the character list `s` start with the character list `t`? -/
def startsList : List Char → List Char → Bool
  | _, [] => true
  | [], _ :: _ => false
  | a :: as, b :: bs => a == b && startsList as bs

/-- Does the character list `s` contain `t` as a contiguous run? -/
def hasSubList (t : List Char) : List Char → Bool
  | [] => startsList [] t
  | c :: rest => startsList (c :: rest) t || hasSubList t rest

/-- Does the string `s` begin with the string `t`? -/
def strStarts (s t : String) : Bool :=
  startsList s.data t.data

/-- Does the string `s` mention `t` as a contiguous substring? -/
def strMentions (s t : String) : Bool :=
  hasSubList t.data s.data

/-- Number of lines in a string: one more than the number of newline characters. -/
def lineCount (s : String) : Nat :=
  s.data.count (Char.ofNat 10) + 1

/-- The fixed text of the `sql_prompt` template before the interpolated question
(`mcp_server.py` lines 123-124). -/
def sqlPromptPrefix : String :=
  "请将以下问题转换为SQL查询：\n问题: "

/-- The fixed text of the `sql_prompt` template after the interpolated question
(`mcp_server.py` lines 124-130). -/
def sqlPromptSuffix : String :=
  "\n\n可用的表结构:\n- users(id, name, age, email)\n- orders(id, user_id, product_name, price, order_date)\n\n请生成标准的SQLite SQL语句，不要生成其他内容，只返回SQL语句本身。"

/-- The prompt `sql_prompt` from `mcp_server.py` (lines 113-130): the prompt template,
an f-string interpolating the question into fixed instructional text. -/
def sql_prompt (question : String) : String :=
  sqlPromptPrefix ++ question ++ sqlPromptSuffix

/-- One column of a table as reported by `PRAGMA table_info`: the embedding keeps
the two fields `get_schema` reads, `col[1]` (name) and `col[2]` (declared type). -/
structure ColumnInfo where
  name : String
  type : String
  deriving DecidableEq, Repr

/-- One table of the live catalog: its name from `sqlite_master` and its columns
from `PRAGMA table_info`. -/
structure TableInfo where
  name : String
  columns : List ColumnInfo
  deriving DecidableEq, Repr

/-- The table-header line `get_schema` appends for a table. -/
def tableHeaderLine (t : String) : String :=
  "表 " ++ t ++ ":"

/-- The column line `get_schema` appends for a column: `  - name (type)`. -/
def columnLine (c : ColumnInfo) : String :=
  "  - " ++ c.name ++ " (" ++ c.type ++ ")"

/-- The resource `get_schema` from `mcp_server.py` (lines 89-111): walk the live catalog of the store,
appending one header line per table followed by one `  - column (type)` line per
column, accumulating into the `schema` list. -/
def get_schema (catalog : List TableInfo) : List String :=
  catalog.foldl
    (fun schema t => (schema ++ [tableHeaderLine t.name]) ++ t.columns.map columnLine)
    []

end MCPServer

namespace Fixture

open MCPServer

/-- The three user rows inserted by `create_database.py` (lines 49-54). -/
def usersRows : List (List SqlValue) :=
  [ [.intV 1, .strV "张三", .intV 25, .strV "zhangsan@example.com"],
    [.intV 2, .strV "李四", .intV 30, .strV "lisi@example.com"],
    [.intV 3, .strV "王五", .intV 35, .strV "wangwu@example.com"] ]

/-- The catalog of the fixture store created by `create_database.py`
(lines 26-46): tables `users` and `orders` with their declared columns. -/
def catalog : List TableInfo :=
  [ ⟨"users",
      [⟨"id", "INTEGER"⟩, ⟨"name", "TEXT"⟩, ⟨"age", "INTEGER"⟩, ⟨"email", "TEXT"⟩]⟩,
    ⟨"orders",
      [⟨"id", "INTEGER"⟩, ⟨"user_id", "INTEGER"⟩, ⟨"product_name", "TEXT"⟩,
       ⟨"price", "REAL"⟩, ⟨"order_date", "TEXT"⟩]⟩ ]

/-- The fixture store as the query tool sees it: `SELECT * FROM users` fetches
the three user rows; the malformed statement `SELEKT` raises a SQLite syntax
error whose message is the one SQLite produces. -/
def db : SqliteDb :=
  ⟨fun sql =>
    if sql = "SELECT * FROM users" then .ok usersRows
    else if sql = "SELEKT" then .error "near \x22SELEKT\x22: syntax error"
    else .error ("near \x22" ++ sql ++ "\x22: syntax error")⟩

end Fixture

namespace MCPClient

/-- A JSON-ish value, standing for Python `Any` in parameter defaults and tool
call arguments. -/
inductive JValue where
  | jNull
  | jStr (s : String)
  | jNum (n : Int)
  | jBool (b : Bool)
  deriving DecidableEq, Repr

/-- The `ToolParameter` dataclass of `mcp_client.py` (lines 34-49). -/
structure ToolParameter where
  name : String
  parameter_type : String
  description : String
  required : Bool := false
  default : Option JValue := none
  deriving DecidableEq, Repr

/-- The `ToolDef` dataclass of `mcp_client.py` (lines 51-66). -/
structure ToolDef where
  name : String
  description : String
  parameters : List ToolParameter
  metadata : Option (List (String × JValue)) := none
  identifier : String := ""
  deriving DecidableEq, Repr

/-- The `ToolInvocationResult` dataclass of `mcp_client.py` (lines 68-77):
content string plus an integer error code. -/
structure ToolInvocationResult where
  content : String
  error_code : Int
  deriving DecidableEq, Repr

/-- The client state `MCP_Client` carries: the endpoint URL, the optional
`ClientSession` (a handle here), and the `AsyncExitStack`, modelled by the
number of async contexts currently entered on it. -/
structure ClientState where
  url : String
  session : Option Nat
  stackDepth : Nat
  deriving DecidableEq, Repr

/-- The constructor `MCP_Client.__init__` (lines 80-91): build the SSE URL, no session yet,
empty exit stack. -/
def initClient (host : String) (port : Nat) : ClientState :=
  { url := "http://" ++ host ++ ":" ++ toString port ++ "/sse",
    session := none, stackDepth := 0 }

/-- The method `MCP_Client.disconnect` (lines 120-124): close the exit stack (releasing
every entered transport context) and reset the stored session to `None`. -/
def disconnect (c : ClientState) : ClientState :=
  { c with session := none, stackDepth := 0 }

/-- Outcomes of the external steps `connect` performs, in order: entering the
SSE stream context, creating/entering the `ClientSession`, the `initialize`
handshake, and the verification `list_tools` call.  Each may raise, carrying a
message. -/
structure ConnectEnv where
  streams : Except String Nat
  sessionCreate : Except String Nat
  initStep : Except String Unit
  verifyTools : Except String (List String)

/-- The `ConnectionError` message `connect` raises (line 118). -/
def connFailMsg (e : String) : String :=
  "Failed to connect to MCP server: " ++ e

/-- The method `MCP_Client.connect` (lines 93-118): enter the SSE stream context on the
exit stack, enter the session context (storing the session), initialize, and
verify by listing tools.  On any exception: call `disconnect` (closing the exit
stack and resetting the session) and raise `ConnectionError` with the
underlying message. -/
def connect (c : ClientState) (env : ConnectEnv) : ClientState × Except String Unit :=
  match env.streams with
  | .error e => (disconnect c, .error (connFailMsg e))
  | .ok _ =>
    let c1 := { c with stackDepth := c.stackDepth + 1 }
    match env.sessionCreate with
    | .error e => (disconnect c1, .error (connFailMsg e))
    | .ok sid =>
      let c2 := { c1 with stackDepth := c1.stackDepth + 1, session := some sid }
      match env.initStep with
      | .error e => (disconnect c2, .error (connFailMsg e))
      | .ok _ =>
        match env.verifyTools with
        | .error e => (disconnect c2, .error (connFailMsg e))
        | .ok _ => (c2, .ok ())

/-- The JSON schema of one declared tool property, as `list_tools` reads it:
`type`, `description` and `default` are looked up with `.get` and may be
absent. -/
structure PropertySchema where
  type : Option String
  description : Option String
  default : Option JValue
  deriving DecidableEq, Repr

/-- A tool as the server advertises it: name, description and `inputSchema`
with its `required` list and `properties` mapping. -/
structure RemoteTool where
  name : String
  description : String
  schemaRequired : List String
  schemaProperties : List (String × PropertySchema)
  deriving DecidableEq, Repr

/-- The body of the `list_tools` loop (lines 138-159): build a `ToolDef` from
one advertised tool, defaulting `type` to `"string"` and `description` to `""`,
marking a parameter required iff its name occurs in the `required` list of the schema
list, and attaching the endpoint metadata. -/
def toolFromRemote (url : String) (t : RemoteTool) : ToolDef :=
  { name := t.name,
    description := t.description,
    parameters := t.schemaProperties.map (fun p =>
      { name := p.1,
        parameter_type := p.2.type.getD "string",
        description := p.2.description.getD "",
        required := t.schemaRequired.contains p.1,
        default := p.2.default }),
    metadata := some [("endpoint", JValue.jStr url)],
    identifier := t.name }

/-- What the connected session would answer: the advertised tools, the prompt
renderer, the resource producer, and the tool-call responder.  These stand for
the server across the transport. -/
structure ContentItem where
  dumpJson : String
  deriving DecidableEq, Repr

/-- The response `session.call_tool` yields: content items (each knowing its
pydantic JSON serialization) and the `isError` flag. -/
structure CallToolResponse where
  content : List ContentItem
  isError : Bool
  deriving DecidableEq, Repr

/-- The remote endpoint as the four session-using operations consume it. -/
structure SessionEnv where
  tools : List RemoteTool
  respond : String → List (String × JValue) → CallToolResponse
  render : String → List (String × String) → String
  read : String → List String

/-- The `ConnectionError` message raised by every session-using operation when
no session is stored (lines 133, 174, 185, 191). -/
def notConnectedMsg : String := "Not connected to MCP server"

/-- The method `MCP_Client.list_tools` (lines 126-160): raise `ConnectionError` when there
is no session; otherwise fetch the advertised tools and convert each.  The
second component counts requests sent over the session. -/
def list_tools (c : ClientState) (env : SessionEnv) :
    Except String (List ToolDef) × Nat :=
  match c.session with
  | none => (.error notConnectedMsg, 0)
  | some _ => (.ok (env.tools.map (toolFromRemote c.url)), 1)

/-- The method `MCP_Client.call_tool` (lines 163-180): raise `ConnectionError` when there
is no session; otherwise send the call (defaulting absent arguments to the
empty mapping) and wrap the response: content items JSON-serialized and joined
by newlines, `error_code` 1 when the response is marked as an error and 0
otherwise. -/
def call_tool (c : ClientState) (env : SessionEnv) (nm : String)
    (arguments : Option (List (String × JValue))) :
    Except String ToolInvocationResult × Nat :=
  match c.session with
  | none => (.error notConnectedMsg, 0)
  | some _ =>
    let r := env.respond nm (arguments.getD [])
    (.ok { content := String.intercalate "\n" (r.content.map ContentItem.dumpJson),
           error_code := if r.isError then 1 else 0 }, 1)

/-- The method `MCP_Client.get_prompt` (lines 182-186): raise `ConnectionError` when there
is no session; otherwise render the prompt remotely. -/
def get_prompt (c : ClientState) (env : SessionEnv) (nm : String)
    (kwargs : List (String × String)) : Except String String × Nat :=
  match c.session with
  | none => (.error notConnectedMsg, 0)
  | some _ => (.ok (env.render nm kwargs), 1)

/-- The method `MCP_Client.get_resource` (lines 188-194): raise `ConnectionError` when
there is no session; otherwise read the resource and yield its items. -/
def get_resource (c : ClientState) (env : SessionEnv) (uri : String) :
    Except String (List String) × Nat :=
  match c.session with
  | none => (.error notConnectedMsg, 0)
  | some _ => (.ok (env.read uri), 1)

end MCPClient

namespace MCPHost

/-- The results of the external collaborators one iteration of the `main` loop
in `mcp_host.py` consumes, in program order: `client.get_prompt`, the OpenAI
call together with `json.loads`/`tool_calls[0]` extraction of the SQL (a
declined call or malformed arguments raise here), `client.call_tool`, and the
explanation OpenAI call.  `Except.error` is a raised exception carrying its
message. -/
structure IterEnv where
  promptFetch : Except String String
  translation : Except String String
  invocation : Except String String
  explanation : Except String String

/-- The body of one `while` iteration (`mcp_host.py` lines 82-161): fetch the
prompt, obtain the generated SQL, invoke `query_db`, explain.  There is no
`try` inside the loop, so any raise propagates out of the body. -/
def runIteration (env : IterEnv) : Except String String := do
  let _prompt ← env.promptFetch
  let _sql ← env.translation
  let _result ← env.invocation
  env.explanation

/-- One turn of the interactive loop: the user enters `q` or asks a question
whose iteration consumes `env`. -/
inductive HostInput where
  | quit
  | ask (env : IterEnv)

/-- The `while True` loop of `main` (`mcp_host.py` lines 76-161) on a finite
input script: `q` breaks the loop; a completed iteration continues with the
next input; an exception raised inside an iteration escapes the loop (there is
no per-iteration handler).  Returns how many iterations completed and how the
loop ended (`Except.error e` = an exception escaped). -/
def hostLoop : List HostInput → Nat × Except String Unit
  | [] => (0, .ok ())
  | .quit :: _ => (0, .ok ())
  | .ask env :: rest =>
    match runIteration env with
    | .ok _ =>
      let r := hostLoop rest
      (r.1 + 1, r.2)
    | .error e => (0, .error e)

/-- Results of the startup steps of `main` before the loop: `client.connect`,
the `db://schema` read, and `client.list_tools`. -/
structure StartupEnv where
  connectR : Except String Unit
  schemaR : Except String (List String)
  toolsR : Except String (List MCPClient.ToolDef)

/-- What `main` observably did: iterations completed, the exception caught by
the single outer `except` handler (if any), and whether the `finally` block
disconnected the client. -/
structure MainResult where
  processed : Nat
  caught : Option String
  disconnected : Bool
  deriving DecidableEq, Repr

/-- The function `main` from `mcp_host.py` (lines 55-168): connect, read the schema, list
tools, run the loop — all inside one `try` whose `except` catches any
exception (logging it) and whose `finally` always disconnects. -/
def hostMain (st : StartupEnv) (inputs : List HostInput) : MainResult :=
  match st.connectR with
  | .error e => ⟨0, some e, true⟩
  | .ok _ =>
    match st.schemaR with
    | .error e => ⟨0, some e, true⟩
    | .ok _ =>
      match st.toolsR with
      | .error e => ⟨0, some e, true⟩
      | .ok _ =>
        let r := hostLoop inputs
        match r.2 with
        | .ok _ => ⟨r.1, none, true⟩
        | .error e => ⟨r.1, some e, true⟩

/-- Modelled from the spec: the orchestrator loop of §4.4, whose per-iteration
faults are reported and the loop "continues awaiting the next question".  This
definition follows the words of the spec (it is not in the source, whose loop has no
per-iteration handler); it is the comparison point for the refinement claim
about error scoping. -/
def hostLoopSpec : List HostInput → Nat × Except String Unit
  | [] => (0, .ok ())
  | .quit :: _ => (0, .ok ())
  | .ask env :: rest =>
    match runIteration env with
    | .ok _ =>
      let r := hostLoopSpec rest
      (r.1 + 1, r.2)
    | .error _ => hostLoopSpec rest

/-- An iteration whose tool invocation raises a session-level error. -/
def badIter : IterEnv :=
  { promptFetch := .ok "prompt", translation := .ok "SELECT 1",
    invocation := .error "session torn down", explanation := .ok "done" }

/-- An iteration in which every collaborator succeeds. -/
def okIter : IterEnv :=
  { promptFetch := .ok "prompt", translation := .ok "SELECT 1",
    invocation := .ok "(1,)", explanation := .ok "done" }

end MCPHost

namespace Registry

open MCPClient

/-- Modelled from the spec: the argument validation of the invocation layer
(§4.2), performed by the FastMCP framework (not under `src/`) for the declared
tool signature — a declared `"string"`/`"number"`/`"boolean"` parameter type is
matched against the shape of the supplied value. -/
def jTypeMatches (declared : String) (v : JValue) : Bool :=
  match declared, v with
  | "string", .jStr _ => true
  | "number", .jNum _ => true
  | "boolean", .jBool _ => true
  | _, _ => false

/-- Look an argument up by parameter name. -/
def lookupArg (args : List (String × JValue)) (nm : String) : Option JValue :=
  (args.find? (fun p => p.1 == nm)).map Prod.snd

/-- Modelled from the spec: one parameter validates when it is present with a
matching type, or absent and not required (§4.2). -/
def validParam (args : List (String × JValue)) (p : ToolParameter) : Bool :=
  match lookupArg args p.name with
  | none => !p.required
  | some v => jTypeMatches p.parameter_type v

/-- Modelled from the spec: the whole argument mapping validates when every
declared parameter does. -/
def validate_args (params : List ToolParameter) (args : List (String × JValue)) : Bool :=
  params.all (validParam args)

/-- Modelled from the spec: `invoke_tool` of §4.2, the framework dispatch that
is not under `src/` — "if arguments violate the declared type of a parameter or a
required parameter is missing, fails with `InvalidArguments` before the
handler runs"; otherwise the handler runs.  The second component counts
handler runs, so a nonzero count is the observable side effect. -/
def invoke_tool (params : List ToolParameter) (handler : List (String × JValue) → String)
    (args : List (String × JValue)) : Except String String × Nat :=
  if validate_args params args then (.ok (handler args), 1)
  else (.error "InvalidArguments", 0)

/-- The declared parameter list of `query_db` (`mcp_server.py` line 64):
one required string parameter `sql`, no default. -/
def queryDbParams : List ToolParameter :=
  [{ name := "sql", parameter_type := "string", description := "SQL查询语句",
     required := true }]

end Registry

namespace SessionModel

/-- The kind of a pending Invocation (spec §3). -/
inductive InvKind where
  | CallTool
  | ReadResource
  | GetPrompt
  deriving DecidableEq, Repr

/-- A pending Invocation in the pending-call table of the Session (spec §3). -/
structure PendingInv where
  correlation_id : Nat
  kind : InvKind
  deriving DecidableEq, Repr

/-- The resolution delivered for an Invocation. -/
inductive Resolution where
  | succeeded (payload : String)
  | failed (msg : String)
  | cancelled
  deriving DecidableEq, Repr

/-- Session lifecycle states (spec §3). -/
inductive SessionState where
  | Handshaking
  | Active
  | Closing
  | Closed
  deriving DecidableEq, Repr

/-- A Session: its state and its pending-call table (spec §3). -/
structure Session where
  state : SessionState
  pending : List PendingInv

/-- Modelled from the spec: `close(session)` of §4.1 — the teardown that
`MCP_Client.disconnect` delegates to the `ClientSession` /
exit-stack (not under `src/`): it "releases the Transport Stream and fails all
pending Invocations with a cancellation error".  Returns the closed session
and the list of resolutions delivered, one per pending Invocation, in table
order. -/
def closeSession (s : Session) : Session × List (Nat × Resolution) :=
  (⟨.Closed, []⟩, s.pending.map (fun p => (p.correlation_id, .cancelled)))

end SessionModel

/-- A remote endpoint that advertises nothing and answers trivially; the
stand-in server for exercising the disconnected client operations. -/
def emptySessionEnv : MCPClient.SessionEnv :=
  ⟨[], fun _ _ => ⟨[], false⟩, fun _ _ => "", fun _ => []⟩

/-- A remote endpoint whose tool-call response carries two content items with
serializations `ja` and `jb` and is marked as an error. -/
def errorRespEnv : MCPClient.SessionEnv :=
  ⟨[], fun _ _ => ⟨[⟨"ja"⟩, ⟨"jb"⟩], true⟩, fun _ _ => "", fun _ => []⟩

/-! ## Helper lemmas -/

/-- A character list always starts with any of its own prefixes. -/
theorem startsList_of_append (p e : List Char) :
    MCPServer.startsList (p ++ e) p = true := by
  induction p with
  | nil => simp [MCPServer.startsList]
  | cons a t ih => simp [MCPServer.startsList, ih]

/-- The fold inside `get_schema`, started from any accumulator, appends one header line
per table followed by its column lines. -/
theorem get_schema_foldl (catalog : List MCPServer.TableInfo) (acc : List String) :
    catalog.foldl
      (fun schema t =>
        (schema ++ [MCPServer.tableHeaderLine t.name]) ++ t.columns.map MCPServer.columnLine)
      acc
    = acc ++ catalog.flatMap
        (fun t => MCPServer.tableHeaderLine t.name :: t.columns.map MCPServer.columnLine) := by
  induction catalog generalizing acc with
  | nil => simp
  | cons a t ih =>
    rw [List.foldl_cons, ih]
    simp

/-! ## Claims -/

/-- C1: for every SQL string whose execution against the store raises an
exception, `query_db` returns (it does not raise) the string `"Error: "`
followed by the original exception message, so the result begins with the
error marker and the fault is content, not a protocol-level failure. -/
theorem query_db_reports_store_fault (db : MCPServer.SqliteDb) (sql e : String)
    (h : db.exec sql = .error e) :
    MCPServer.query_db db sql = "Error: " ++ e ∧
    MCPServer.strStarts (MCPServer.query_db db sql) "Error: " = true := by
  have h1 : MCPServer.query_db db sql = "Error: " ++ e := by
    unfold MCPServer.query_db
    rw [h]
  refine ⟨h1, ?_⟩
  rw [h1]
  unfold MCPServer.strStarts
  rw [String.data_append]
  exact startsList_of_append _ _

/-- C1 witness: the malformed statement `SELEKT` against the fixture store. -/
theorem query_db_reports_store_fault_witness :
    MCPServer.query_db Fixture.db "SELEKT" = "Error: near \x22SELEKT\x22: syntax error" ∧
    MCPServer.strStarts (MCPServer.query_db Fixture.db "SELEKT") "Error: " = true :=
  query_db_reports_store_fault Fixture.db "SELEKT" "near \x22SELEKT\x22: syntax error" rfl

/-- C2: for every successfully executed query, `query_db` returns the fetched
rows each stringified and joined by newlines. -/
theorem query_db_joins_rows (db : MCPServer.SqliteDb) (sql : String)
    (rows : List (List MCPServer.SqlValue)) (h : db.exec sql = .ok rows) :
    MCPServer.query_db db sql = String.intercalate "\n" (rows.map MCPServer.pyStrRow) := by
  unfold MCPServer.query_db
  rw [h]

/-- C2 witness: `SELECT * FROM users` against the fixture store, whose `users`
table holds exactly the three rows with ids 1, 2, 3, yields content of exactly
3 lines. -/
theorem query_db_joins_rows_witness :
    Fixture.usersRows.length = 3 ∧
    MCPServer.lineCount (MCPServer.query_db Fixture.db "SELECT * FROM users") = 3 := by
  refine ⟨rfl, ?_⟩
  rw [query_db_joins_rows Fixture.db "SELECT * FROM users" Fixture.usersRows rfl]
  decide

/-- C3: `sql_prompt` is a pure function of its single argument: rendering with
question `X` yields fixed instructional text with `X` embedded verbatim
between a fixed prefix and a fixed suffix; the suffix carries the two table
schemas; and rendering the same `X` twice yields the identical string. -/
theorem sql_prompt_embeds_question (X : String) :
    MCPServer.sql_prompt X = MCPServer.sqlPromptPrefix ++ X ++ MCPServer.sqlPromptSuffix ∧
    MCPServer.sql_prompt X = MCPServer.sql_prompt X ∧
    MCPServer.strMentions MCPServer.sqlPromptSuffix "- users(id, name, age, email)" = true ∧
    MCPServer.strMentions MCPServer.sqlPromptSuffix
      "- orders(id, user_id, product_name, price, order_date)" = true :=
  ⟨rfl, rfl, by decide, by decide⟩

/-- C5 counterexample: as stated, the claim fails on the code.  When the tool
invocation of the first question raises, the source loop (which has no
per-iteration handler) terminates with the exception instead of awaiting the
next input: on the concrete script [failing question, quit] it disagrees with
the spec-modelled loop that continues as the claim words it. -/
theorem hostLoop_not_iteration_local :
    MCPHost.hostLoop [MCPHost.HostInput.ask MCPHost.badIter, MCPHost.HostInput.quit]
      = (0, Except.error "session torn down") ∧
    MCPHost.hostLoopSpec [MCPHost.HostInput.ask MCPHost.badIter, MCPHost.HostInput.quit]
      = (0, Except.ok ()) ∧
    MCPHost.hostLoop [MCPHost.HostInput.ask MCPHost.badIter, MCPHost.HostInput.quit]
      ≠ MCPHost.hostLoopSpec [MCPHost.HostInput.ask MCPHost.badIter, MCPHost.HostInput.quit] := by
  refine ⟨rfl, rfl, ?_⟩
  intro h
  rw [show MCPHost.hostLoop [MCPHost.HostInput.ask MCPHost.badIter, MCPHost.HostInput.quit]
        = (0, Except.error "session torn down") from rfl,
      show MCPHost.hostLoopSpec [MCPHost.HostInput.ask MCPHost.badIter, MCPHost.HostInput.quit]
        = (0, Except.ok ()) from rfl] at h
  simp at h

/-- C5 (amended): an error raised during one iteration of the orchestrator
loop — a translation failure or a Session-level error at prompt fetch or tool
invocation — escapes the loop: no further question is processed, the single
outer handler catches and logs it, and the `finally` block disconnects the
client; the session as a whole terminates. -/
theorem hostLoop_error_terminates_loop (env : MCPHost.IterEnv)
    (rest : List MCPHost.HostInput) (e : String)
    (h : MCPHost.runIteration env = .error e) :
    MCPHost.hostLoop (MCPHost.HostInput.ask env :: rest) = (0, Except.error e) ∧
    ∀ schema tools,
      MCPHost.hostMain ⟨Except.ok (), Except.ok schema, Except.ok tools⟩
          (MCPHost.HostInput.ask env :: rest)
        = ⟨0, some e, true⟩ := by
  have h1 : MCPHost.hostLoop (MCPHost.HostInput.ask env :: rest) = (0, Except.error e) := by
    unfold MCPHost.hostLoop
    rw [h]
  refine ⟨h1, fun schema tools => ?_⟩
  unfold MCPHost.hostMain
  rw [h1]

/-- C5 witness: the amended claim at the concrete script [failing question,
quit] with successful startup. -/
theorem hostLoop_error_terminates_loop_witness :
    MCPHost.hostLoop [MCPHost.HostInput.ask MCPHost.badIter, MCPHost.HostInput.quit]
      = (0, Except.error "session torn down") ∧
    MCPHost.hostMain ⟨Except.ok (), Except.ok [], Except.ok []⟩
        [MCPHost.HostInput.ask MCPHost.badIter, MCPHost.HostInput.quit]
      = ⟨0, some "session torn down", true⟩ :=
  ⟨(hostLoop_error_terminates_loop MCPHost.badIter [MCPHost.HostInput.quit]
      "session torn down" rfl).1,
   (hostLoop_error_terminates_loop MCPHost.badIter [MCPHost.HostInput.quit]
      "session torn down" rfl).2 [] []⟩

/-- C4: `get_schema` produces, for every table of the live catalog, one
table-header line followed by one `  - column (type)` line per column; on the
fixture catalog the concatenation of the produced items mentions both table
headers and every declared column of both tables. -/
theorem get_schema_lines (catalog : List MCPServer.TableInfo) :
    MCPServer.get_schema catalog
      = catalog.flatMap
          (fun t => MCPServer.tableHeaderLine t.name :: t.columns.map MCPServer.columnLine) ∧
    (["表 users:", "表 orders:",
      "  - id (INTEGER)", "  - name (TEXT)", "  - age (INTEGER)", "  - email (TEXT)",
      "  - user_id (INTEGER)", "  - product_name (TEXT)", "  - price (REAL)",
      "  - order_date (TEXT)"].all
        (MCPServer.strMentions (String.join (MCPServer.get_schema Fixture.catalog)))) = true := by
  refine ⟨?_, by decide⟩
  unfold MCPServer.get_schema
  rw [get_schema_foldl]
  rfl


/-- C6: opening a session either yields a connected session or fails
atomically: whenever `connect` raises, the message is the `ConnectionError`
text carrying the underlying message of the failed step, and the client it leaves behind
has its transport contexts released and its stored session reset to `None`. -/
theorem connect_failure_atomic (c : MCPClient.ClientState) (env : MCPClient.ConnectEnv)
    (e : String) (h : (MCPClient.connect c env).2 = .error e) :
    (MCPClient.connect c env).1.session = none ∧
    (MCPClient.connect c env).1.stackDepth = 0 ∧
    ∃ u, e = MCPClient.connFailMsg u ∧
      (env.streams = .error u ∨ env.sessionCreate = .error u ∨
       env.initStep = .error u ∨ env.verifyTools = .error u) := by
  unfold MCPClient.connect at h ⊢
  cases hs : env.streams with
  | error u =>
    rw [hs] at h
    exact ⟨rfl, rfl, u, (Except.error.inj h).symm, Or.inl rfl⟩
  | ok s0 =>
    rw [hs] at h
    cases hc : env.sessionCreate with
    | error u =>
      rw [hc] at h
      exact ⟨rfl, rfl, u, (Except.error.inj h).symm, Or.inr (Or.inl rfl)⟩
    | ok sid =>
      rw [hc] at h
      cases hi : env.initStep with
      | error u =>
        rw [hi] at h
        exact ⟨rfl, rfl, u, (Except.error.inj h).symm, Or.inr (Or.inr (Or.inl rfl))⟩
      | ok u0 =>
        rw [hi] at h
        cases hv : env.verifyTools with
        | error u =>
          rw [hv] at h
          exact ⟨rfl, rfl, u, (Except.error.inj h).symm, Or.inr (Or.inr (Or.inr rfl))⟩
        | ok ts =>
          rw [hv] at h
          exact Except.noConfusion h

/-- C6 witness: a connection whose SSE stream setup is refused. -/
theorem connect_failure_atomic_witness :
    (MCPClient.connect (MCPClient.initClient "127.0.0.1" 8100)
        ⟨Except.error "connection refused", Except.ok 0, Except.ok (), Except.ok []⟩).1.session
      = none ∧
    (MCPClient.connect (MCPClient.initClient "127.0.0.1" 8100)
        ⟨Except.error "connection refused", Except.ok 0, Except.ok (), Except.ok []⟩).1.stackDepth
      = 0 :=
  ⟨(connect_failure_atomic (MCPClient.initClient "127.0.0.1" 8100)
      ⟨Except.error "connection refused", Except.ok 0, Except.ok (), Except.ok []⟩
      "Failed to connect to MCP server: connection refused" rfl).1,
   (connect_failure_atomic (MCPClient.initClient "127.0.0.1" 8100)
      ⟨Except.error "connection refused", Except.ok 0, Except.ok (), Except.ok []⟩
      "Failed to connect to MCP server: connection refused" rfl).2.1⟩

/-- C7: invoking a tool whose arguments omit a required parameter or violate a
declared parameter type fails with `InvalidArguments` and the handler does not
run (its run count stays zero, so it performs no observable side effect). -/
theorem invoke_tool_rejects_invalid_args (params : List MCPClient.ToolParameter)
    (handler : List (String × MCPClient.JValue) → String)
    (args : List (String × MCPClient.JValue)) (p : MCPClient.ToolParameter)
    (hp : p ∈ params)
    (hbad : (p.required = true ∧ Registry.lookupArg args p.name = none) ∨
            (∃ v, Registry.lookupArg args p.name = some v ∧
              Registry.jTypeMatches p.parameter_type v = false)) :
    Registry.invoke_tool params handler args = (.error "InvalidArguments", 0) := by
  have hvp : Registry.validParam args p = false := by
    unfold Registry.validParam
    rcases hbad with ⟨hreq, hnone⟩ | ⟨v, hv, hty⟩
    · rw [hnone, hreq]
      rfl
    · rw [hv]
      exact hty
  have hall : Registry.validate_args params args = false := by
    unfold Registry.validate_args
    cases hb : params.all (Registry.validParam args) with
    | false => rfl
    | true =>
      have hmem := List.all_eq_true.mp hb p hp
      rw [hvp] at hmem
      exact Bool.noConfusion hmem
  simp [Registry.invoke_tool, hall]

/-- C7 witness: calling `query_db` with no arguments at all, so the required
string parameter `sql` is missing. -/
theorem invoke_tool_rejects_invalid_args_witness :
    Registry.invoke_tool Registry.queryDbParams (fun _ => "handler ran") []
      = (.error "InvalidArguments", 0) :=
  invoke_tool_rejects_invalid_args Registry.queryDbParams (fun _ => "handler ran") []
    ⟨"sql", "string", "SQL查询语句", true, none⟩ (by decide) (Or.inl ⟨rfl, rfl⟩)

/-- Mapping the pending table to cancellation resolutions preserves the count
of any given correlation id. -/
theorem count_map_cancelled (l : List SessionModel.PendingInv) (cid : Nat) :
    ((l.map (fun p => (p.correlation_id, SessionModel.Resolution.cancelled))).count
        (cid, SessionModel.Resolution.cancelled))
      = (l.map SessionModel.PendingInv.correlation_id).count cid := by
  induction l with
  | nil => rfl
  | cons a t ih =>
    simp [List.count_cons, ih, Prod.mk.injEq]

/-- C8: closing a Session resolves every pending Invocation to a cancellation
error exactly once — the resolution for a pending correlation id is delivered
(no hang) and appears exactly once in the delivered resolutions (no duplicate)
— and the closed Session retains no pending Invocation. -/
theorem closeSession_cancels_pending_once (s : SessionModel.Session) (cid : Nat)
    (hnd : (s.pending.map SessionModel.PendingInv.correlation_id).Nodup)
    (hmem : cid ∈ s.pending.map SessionModel.PendingInv.correlation_id) :
    ((SessionModel.closeSession s).2.count (cid, SessionModel.Resolution.cancelled) = 1) ∧
    (SessionModel.closeSession s).1.pending = [] ∧
    (SessionModel.closeSession s).1.state = SessionModel.SessionState.Closed := by
  refine ⟨?_, rfl, rfl⟩
  have h2 : (SessionModel.closeSession s).2
      = s.pending.map (fun p => (p.correlation_id, SessionModel.Resolution.cancelled)) := rfl
  rw [h2, count_map_cancelled]
  exact List.count_eq_one_of_mem hnd hmem

/-- C8 witness: closing an active session with two distinct pending
invocations resolves correlation id 7 to a cancellation exactly once. -/
theorem closeSession_cancels_pending_once_witness :
    ((SessionModel.closeSession
        ⟨SessionModel.SessionState.Active,
         [⟨7, SessionModel.InvKind.CallTool⟩, ⟨9, SessionModel.InvKind.ReadResource⟩]⟩).2.count
      (7, SessionModel.Resolution.cancelled) = 1) ∧
    (SessionModel.closeSession
        ⟨SessionModel.SessionState.Active,
         [⟨7, SessionModel.InvKind.CallTool⟩, ⟨9, SessionModel.InvKind.ReadResource⟩]⟩).1.pending
      = [] ∧
    (SessionModel.closeSession
        ⟨SessionModel.SessionState.Active,
         [⟨7, SessionModel.InvKind.CallTool⟩, ⟨9, SessionModel.InvKind.ReadResource⟩]⟩).1.state
      = SessionModel.SessionState.Closed :=
  closeSession_cancels_pending_once
    ⟨SessionModel.SessionState.Active,
     [⟨7, SessionModel.InvKind.CallTool⟩, ⟨9, SessionModel.InvKind.ReadResource⟩]⟩
    7 (by decide) (by decide)

/-- C9: every session-using client operation — `list_tools`, `call_tool`,
`get_prompt`, `get_resource` — fails with the `ConnectionError` message when
no session is stored, sending nothing (request count 0); a freshly initialized
client and a disconnected client are both in that state. -/
theorem session_ops_fail_when_disconnected (c : MCPClient.ClientState)
    (env : MCPClient.SessionEnv) (nm uri : String)
    (args : Option (List (String × MCPClient.JValue)))
    (kwargs : List (String × String)) (hs : c.session = none) :
    MCPClient.list_tools c env = (.error MCPClient.notConnectedMsg, 0) ∧
    MCPClient.call_tool c env nm args = (.error MCPClient.notConnectedMsg, 0) ∧
    MCPClient.get_prompt c env nm kwargs = (.error MCPClient.notConnectedMsg, 0) ∧
    MCPClient.get_resource c env uri = (.error MCPClient.notConnectedMsg, 0) ∧
    (MCPClient.disconnect c).session = none ∧
    (MCPClient.initClient "127.0.0.1" 8100).session = none := by
  unfold MCPClient.list_tools MCPClient.call_tool MCPClient.get_prompt MCPClient.get_resource
  rw [hs]
  exact ⟨rfl, rfl, rfl, rfl, rfl, rfl⟩

/-- C9 witness: the four operations on a freshly initialized (never connected)
client. -/
theorem session_ops_fail_when_disconnected_witness :
    MCPClient.list_tools (MCPClient.initClient "127.0.0.1" 8100) emptySessionEnv
      = (.error MCPClient.notConnectedMsg, 0) ∧
    MCPClient.call_tool (MCPClient.initClient "127.0.0.1" 8100) emptySessionEnv "query_db" none
      = (.error MCPClient.notConnectedMsg, 0) ∧
    MCPClient.get_prompt (MCPClient.initClient "127.0.0.1" 8100) emptySessionEnv "sql_prompt" []
      = (.error MCPClient.notConnectedMsg, 0) ∧
    MCPClient.get_resource (MCPClient.initClient "127.0.0.1" 8100) emptySessionEnv "db://schema"
      = (.error MCPClient.notConnectedMsg, 0) ∧
    (MCPClient.disconnect (MCPClient.initClient "127.0.0.1" 8100)).session = none ∧
    (MCPClient.initClient "127.0.0.1" 8100).session = none :=
  session_ops_fail_when_disconnected (MCPClient.initClient "127.0.0.1" 8100)
    emptySessionEnv "query_db" "db://schema" none [] rfl

/-- C10: on a connected client, `call_tool` yields a result whose content is
the JSON serialization of each response content item joined by newlines, and
whose `error_code` is 1 exactly when the server marked the response as an
error and 0 otherwise — never any other value. -/
theorem call_tool_wraps_response (c : MCPClient.ClientState) (env : MCPClient.SessionEnv)
    (nm : String) (args : Option (List (String × MCPClient.JValue))) (sid : Nat)
    (hs : c.session = some sid) :
    (MCPClient.call_tool c env nm args).1
      = Except.ok
          ⟨String.intercalate "\n"
              ((env.respond nm (args.getD [])).content.map MCPClient.ContentItem.dumpJson),
            if (env.respond nm (args.getD [])).isError then 1 else 0⟩ ∧
    ∀ r : MCPClient.ToolInvocationResult,
      (MCPClient.call_tool c env nm args).1 = Except.ok r →
        (r.error_code = 0 ∨ r.error_code = 1) ∧
        (r.error_code = 1 ↔ (env.respond nm (args.getD [])).isError = true) := by
  have h1 : (MCPClient.call_tool c env nm args).1
      = Except.ok
          ⟨String.intercalate "\n"
              ((env.respond nm (args.getD [])).content.map MCPClient.ContentItem.dumpJson),
            if (env.respond nm (args.getD [])).isError then 1 else 0⟩ := by
    unfold MCPClient.call_tool
    rw [hs]
  refine ⟨h1, fun r hr => ?_⟩
  rw [h1] at hr
  obtain rfl := Except.ok.inj hr
  cases hE : (env.respond nm (args.getD [])).isError with
  | true => simp [hE]
  | false => simp [hE]

/-- C10 witness: a connected client receiving an error-marked response with
two content items. -/
theorem call_tool_wraps_response_witness :
    (MCPClient.call_tool ⟨"http://127.0.0.1:8100/sse", some 0, 2⟩ errorRespEnv
        "query_db" none).1
      = Except.ok ⟨"ja\njb", 1⟩ := by
  rw [(call_tool_wraps_response ⟨"http://127.0.0.1:8100/sse", some 0, 2⟩ errorRespEnv
        "query_db" none 0 rfl).1]
  rfl
